import Mathlib

/-!
# Verification of the quant-backtest-lab core engine

Shallow embedding of the backtest engine (`src/backend/Engine/BacktestEngine.cs`)
and of the Python scoring sandbox (`PythonStrategyService.BuildSignalsByDateAsync`).

Modelling conventions:
* C# `decimal` arithmetic is modelled with `ℚ` (exact rationals);
* `DateOnly` trading dates are modelled as `ℕ` day ordinals;
* dictionaries are modelled as association lists or as functions;
* fallible / effectful C# code is modelled with `Except` results plus an
  explicit environment record describing the behaviour of the outside world
  (process exit, thrown exceptions, produced output).
-/

namespace QuantBacktest

/-- Model of `string.Trim()`: remove leading and trailing whitespace. -/
def trimString (s : String) : String :=
  (((s.data.dropWhile Char.isWhitespace).reverse.dropWhile Char.isWhitespace).reverse).asString

/-- Model of `string.ToUpperInvariant()` (modelled at the ASCII level). -/
def toUpperInvariant (s : String) : String :=
  (s.data.map Char.toUpper).asString

/-- Model of `string.IsNullOrWhiteSpace` on a present string: empty or all-whitespace. -/
def isBlank (s : String) : Bool :=
  s.data.all Char.isWhitespace

/-- Model of `string.IsNullOrWhiteSpace` on a nullable string. -/
def isNullOrWhiteSpace : Option String → Bool
  | none => true
  | some s => isBlank s

/-- Model of .NET `Enumerable.TakeLast k`: the last `min k (length l)` elements. -/
def takeLast (l : List α) (k : Nat) : List α :=
  l.drop (l.length - k)

/-- Model of `Dictionary.TryGetValue` over an association-list model of a dictionary. -/
def lookupAssoc (m : List (String × α)) (k : String) : Option α :=
  (m.find? (fun kv => kv.1 == k)).map Prod.snd

/-- Worker of `distinct`: `seen` is the set of elements already emitted. -/
def distinctAux [DecidableEq α] (seen : List α) : List α → List α
  | [] => []
  | a :: l => if a ∈ seen then distinctAux seen l else a :: distinctAux (a :: seen) l

/-- Model of .NET `Enumerable.Distinct` / `ToHashSet`: drop duplicates, keeping the
first occurrence of each element. -/
def distinct [DecidableEq α] (l : List α) : List α :=
  distinctAux [] l

/-! ## BacktestEngine.RunAsync: symbol normalization and setup checks -/

/-- The symbol normalization at the top of `RunAsync`:
`config.Symbols.Select(x => x.Trim().ToUpperInvariant()).Where(x => !IsNullOrWhiteSpace(x)).Distinct().ToList()`. -/
def normalizeSymbols (raw : List String) : List String :=
  distinct ((raw.map (fun s => toUpperInvariant (trimString s))).filter (fun s => !isBlank s))

/-- Model of `BacktestEngine.IntersectDates`: build a hash set per date collection
(modelled as a duplicate-free list), intersect them all with `IntersectWith`
(modelled as membership filtering), and return the intersection sorted
ascending (`OrderBy`). An empty list of collections yields the empty calendar. -/
def IntersectDates (cols : List (List Nat)) : List Nat :=
  match cols with
  | [] => []
  | c0 :: rest =>
    (rest.foldl (fun acc c => acc.filter (fun d => d ∈ c)) (distinct c0)).insertionSort (· ≤ ·)

/-- The setup phase of `RunAsync` before the simulation loop: normalize symbols,
check the minimum symbol count `max(3, longCount + shortCount)`, fetch bars per
symbol (modelled by `getBars`, giving each symbol's trading dates), intersect the
symbols' dates into the aligned calendar, and check the date-coverage minimum
(`commonDates.Count <= lookbackDays + 2` throws). On success it returns the
normalized symbol list and the aligned calendar that drives the loop. -/
def runSetup (rawSymbols : List String) (longCount shortCount : Nat)
    (getBars : String → List Nat) (lookbackDays : Nat) :
    Except String (List String × List Nat) :=
  if (normalizeSymbols rawSymbols).length < max 3 (longCount + shortCount) then
    .error "Not enough symbols provided for long/short selection."
  else if (IntersectDates ((normalizeSymbols rawSymbols).map getBars)).length ≤
      lookbackDays + 2 then
    .error "Insufficient overlapping date coverage across symbols."
  else
    .ok (normalizeSymbols rawSymbols,
      IntersectDates ((normalizeSymbols rawSymbols).map getBars))

/-- The aligned calendar the spec describes: the intersection of the trading
dates of all configured symbols AND of the benchmark series. (Second
definition for the refinement comparison of C1; the engine's own calendar is
the one produced by `runSetup` / `IntersectDates`, which does not include the
benchmark.) -/
def specAlignedCalendar (symbols : List String) (getBars : String → List Nat)
    (benchmarkDates : List Nat) : List Nat :=
  IntersectDates (symbols.map getBars ++ [benchmarkDates])

/-! ## BacktestEngine.RunAsync: simulation loop indices and rebalance cadence -/

/-- The loop indices of `for (var i = config.LookbackDays + 1; i < commonDates.Count; i++)`. -/
def simulatedIndices (count lookbackDays : Nat) : List Nat :=
  List.range' (lookbackDays + 1) (count - (lookbackDays + 1))

/-- The modulo divisor of the rebalance test: `Math.Max(1, config.RebalanceFrequencyDays)`. -/
def rebalanceDivisor (rebalanceFrequencyDays : Int) : Int :=
  max 1 rebalanceFrequencyDays

/-- The rebalance-boundary test at loop index `i`:
`(i - config.LookbackDays) % Math.Max(1, config.RebalanceFrequencyDays) == 0`. -/
def isRebalanceStep (lookbackDays : Nat) (rebalanceFrequencyDays : Int) (i : Nat) : Bool :=
  ((i : Int) - (lookbackDays : Int)) % rebalanceDivisor rebalanceFrequencyDays == 0

/-- How many of the simulated days satisfy the rebalance-boundary test. -/
def rebalanceCount (count lookbackDays : Nat) (rebalanceFrequencyDays : Int) : Nat :=
  (simulatedIndices count lookbackDays).countP (isRebalanceStep lookbackDays rebalanceFrequencyDays)

/-! ## BacktestEngine.RunAsync: ranking and rebalance weights -/

/-- The built-in momentum score of one symbol at a rebalance:
`startClose == 0 ? 0 : endClose / startClose - 1`. -/
def momentumScore (startClose endClose : ℚ) : ℚ :=
  if startClose = 0 then 0 else endClose / startClose - 1

/-- The built-in ranking at a rebalance date: score every symbol by trailing
momentum over the lookback window and sort descending by score
(`OrderByDescending` is a stable sort). -/
def builtinRanked (symbols : List String) (closeOf : String → Nat → ℚ)
    (lookbackDate date : Nat) : List (String × ℚ) :=
  (symbols.map (fun s => (s, momentumScore (closeOf s lookbackDate) (closeOf s date)))).insertionSort
    (fun a b => b.2 ≤ a.2)

/-- The sentinel score `decimal.MinValue / 2m` given to a symbol that the
external ScoreMap omits on a date it covers. -/
def sentinelScore : ℚ :=
  -(79228162514264337593543950335 : ℚ) / 2

/-- A per-date map of external scores: date key → (symbol → score). -/
abbrev SigMap := List (String × List (String × ℚ))

/-- The ranking used at a rebalance: the external ScoreMap's ranking when it has
a non-empty entry for the date, else the built-in ranking. -/
def rankedAt (signals : Option SigMap) (dateKey : String) (symbols : List String)
    (builtin : List (String × ℚ)) : List (String × ℚ) :=
  match signals with
  | none => builtin
  | some m =>
    match lookupAssoc m dateKey with
    | some dateSignals =>
      if dateSignals.length > 0 then
        (symbols.map (fun s => (s, (lookupAssoc dateSignals s).getD sentinelScore))).insertionSort
          (fun a b => b.2 ≤ a.2)
      else builtin
    | none => builtin

/-- Model of `ranked.Take(Math.Max(1, config.LongCount)).Select(x => x.symbol).ToHashSet()`,
modelled as a duplicate-free list (the hash set's elements). -/
def longSelection (ranked : List (String × ℚ)) (longCount : Nat) : List String :=
  distinct ((ranked.take (max 1 longCount)).map Prod.fst)

/-- Model of `ranked.TakeLast(Math.Max(1, config.ShortCount)).Select(x => x.symbol).ToHashSet()`. -/
def shortSelection (ranked : List (String × ℚ)) (shortCount : Nat) : List String :=
  distinct ((takeLast ranked (max 1 shortCount)).map Prod.fst)

/-- The weights produced by a rebalance: start from all-zero, assign each
long-selected symbol `1 / longSelection.Count`, then assign each short-selected
symbol `-1 / shortSelection.Count` (the short assignment overwrites the long
one on overlap, exactly as the two `foreach` loops do). -/
def nextWeights (ranked : List (String × ℚ)) (longCount shortCount : Nat) : String → ℚ :=
  fun s =>
    if s ∈ shortSelection ranked shortCount then
      -1 / ((shortSelection ranked shortCount).length : ℚ)
    else if s ∈ longSelection ranked longCount then
      1 / ((longSelection ranked longCount).length : ℚ)
    else 0

/-! ## PythonExecutionSummary and the caller's fallback policy -/

/-- Model of `PythonExecutionSummary` (record in the models file). -/
structure PythonExecutionSummary where
  requested : Bool
  executed : Bool
  succeeded : Bool
  usedFallback : Bool
  message : String
  signalDates : Nat
  stderrSnippet : Option String
  errorType : Option String
  deriving Repr, DecidableEq

/-- The error message RunAsync throws when scoring failed and fallback is off:
`Python strategy failed ({ErrorType ?? "error"}): {Message}.{detail}` with
`detail` empty or ` stderr: {StderrSnippet}`. -/
def pythonFailureMessage (exec : PythonExecutionSummary) : String :=
  let detail :=
    if isNullOrWhiteSpace exec.stderrSnippet then ""
    else " stderr: " ++ exec.stderrSnippet.getD ""
  "Python strategy failed (" ++ exec.errorType.getD "error" ++ "): " ++ exec.message ++ "." ++ detail

/-- RunAsync's handling of the scoring outcome (lines 69-86): if scoring was
requested and did not succeed then either abort the run with the failure
message (fallback disabled) or mark the fallback and discard all external
signals (fallback enabled); otherwise keep the outcome and signals as they are. -/
def applyPythonOutcome (fallbackToBuiltinOnPythonError : Bool)
    (exec : PythonExecutionSummary) (signals : Option SigMap) :
    Except String (PythonExecutionSummary × Option SigMap) :=
  if exec.requested && !exec.succeeded then
    if !fallbackToBuiltinOnPythonError then
      .error (pythonFailureMessage exec)
    else
      .ok ({ exec with
              usedFallback := true
              message := exec.message ++ " Falling back to built-in momentum ranking." },
           none)
  else
    .ok (exec, signals)

/-! ## The scoring sandbox (`PythonStrategyService.BuildSignalsByDateAsync`) -/

/-- The JSON values a strategy-parameter payload can hold (`JsonElement`). -/
inductive Json where
  | null : Json
  | bool : Bool → Json
  | num : ℚ → Json
  | str : String → Json
  | arr : List Json → Json
  | obj : List (String × Json) → Json
  deriving Repr

mutual

/-- The traversal of `IsWithinDepthAndSize`: visit one element, incrementing the
shared `nodesVisited` counter, failing when the counter exceeds `maxNodes` or
the depth exceeds `maxDepth`, and recursing into object / array children.
Returns the verdict together with the updated counter. -/
def travOne (maxDepth maxNodes : Nat) : Json → Nat → Nat → Bool × Nat
  | j, depth, nodes =>
    let n := nodes + 1
    if n > maxNodes || depth > maxDepth then (false, n)
    else
      match j with
      | .arr items => travArr maxDepth maxNodes items (depth + 1) n
      | .obj fields => travObj maxDepth maxNodes fields (depth + 1) n
      | _ => (true, n)

/-- Model of `EnumerateArray().All(item => Traverse(item, depth + 1))`: short-circuits on
the first failing child, threading the node counter. -/
def travArr (maxDepth maxNodes : Nat) : List Json → Nat → Nat → Bool × Nat
  | [], _, nodes => (true, nodes)
  | j :: rest, depth, nodes =>
    match travOne maxDepth maxNodes j depth nodes with
    | (true, n) => travArr maxDepth maxNodes rest depth n
    | (false, n) => (false, n)

/-- Model of `EnumerateObject().All(property => Traverse(property.Value, depth + 1))`. -/
def travObj (maxDepth maxNodes : Nat) : List (String × Json) → Nat → Nat → Bool × Nat
  | [], _, nodes => (true, nodes)
  | (_, j) :: rest, depth, nodes =>
    match travOne maxDepth maxNodes j depth nodes with
    | (true, n) => travObj maxDepth maxNodes rest depth n
    | (false, n) => (false, n)

end

/-- Model of `PythonStrategyService.IsWithinDepthAndSize`. -/
def IsWithinDepthAndSize (element : Json) (maxDepth maxNodes : Nat) : Bool :=
  (travOne maxDepth maxNodes element 0 0).1

mutual

/-- Nesting depth of a JSON value: the depth of its deepest node, the root
sitting at depth 0 (so a scalar has depth 0, an object holding a scalar
depth 1, and so on). -/
def nodeDepth : Json → Nat
  | .arr items => nodeDepthArr items
  | .obj fields => nodeDepthObj fields
  | _ => 0

/-- Depth contributed by the children of an array node. -/
def nodeDepthArr : List Json → Nat
  | [] => 0
  | j :: rest => max (1 + nodeDepth j) (nodeDepthArr rest)

/-- Depth contributed by the children of an object node. -/
def nodeDepthObj : List (String × Json) → Nat
  | [] => 0
  | (_, j) :: rest => max (1 + nodeDepth j) (nodeDepthObj rest)

end

/-- The `foreach` body of `ValidateParams`: return the first key-length or
depth/size violation, in payload order. -/
def findParamError : List (String × Json) → Option String
  | [] => none
  | (k, v) :: rest =>
    if k.length > 120 then
      some ("Param key \"" ++ k ++ "\" is too long (max 120 chars).")
    else if !IsWithinDepthAndSize v 8 10000 then
      some ("Param \"" ++ k ++ "\" exceeds supported JSON complexity.")
    else findParamError rest

/-- Model of `PythonStrategyService.ValidateParams`: `null` passes, more than 200
parameters fails, then each entry's key length and nested value complexity is
checked in order. -/
def ValidateParams : Option (List (String × Json)) → Option String
  | none => none
  | some ps =>
    if ps.length > 200 then some "Too many strategy params (max 200)."
    else findParamError ps

/-- Model of `PythonStrategyService.ExtractSignalJson`: split stdout on newlines,
trimming entries and dropping empties, and return the last line that starts
with `\x7b` and ends with `\x7d`. -/
def ExtractSignalJson (stdout : String) : Option String :=
  if isBlank stdout then none
  else
    ((((stdout.splitOn "\n").map trimString).filter (fun l => l ≠ "")).reverse).find?
      (fun l => l.startsWith "\x7b" && l.endsWith "\x7d")

/-- Model of `PythonStrategyService.Truncate`. -/
def Truncate (value : String) (maxLength : Nat) : String :=
  if value.length ≤ maxLength then value
  else (value.toList.take maxLength).asString

/-- The relevant parts of `BacktestConfig` for the sandbox call. -/
structure SandboxConfig where
  strategyCode : Option String
  strategyParams : Option (List (String × Json))

/-- Oracle describing how the outside world behaves during one sandbox call:
whether creating the temporary directory throws (this happens *before* the
`try` block), whether preparation inside the `try` block (file writes /
process start) throws, whether the subprocess exits within the 15-second
timeout, its exit code, its captured stdout / stderr, and how JSON
deserialization of the extracted signal line behaves. -/
structure PyEnv where
  createDirThrows : Option String
  prepThrows : Option String
  exitsWithinTimeout : Bool
  exitCode : Int
  stdout : String
  stderr : String
  deserThrows : Option String
  deserResult : Option SigMap

/-- Externally visible side effects of one sandbox call. -/
structure SandboxEffects where
  tempDirCreated : Bool
  processSpawned : Bool
  killedProcessTree : Bool
  tempDirDeleted : Bool
  deriving Repr, DecidableEq

/-- Model of `PythonSignalsResult`: the execution summary plus the optional ScoreMap. -/
structure PythonSignalsResult where
  execution : PythonExecutionSummary
  signals : Option SigMap
  deriving Repr, DecidableEq

/-- No side effects at all (the validation-failure exits). -/
def SandboxEffects.none : SandboxEffects :=
  ⟨false, false, false, false⟩

/-- Model of `PythonStrategyService.BuildSignalsByDateAsync`, branch for branch:
1. blank / absent strategy code → `requested:false, succeeded:true`, no signals;
2. code longer than 200,000 chars → `validation` failure;
3. `ValidateParams` failure → `validation` failure;
4. the temporary directory is created (an exception here is *outside* the
   `try` block and propagates, modelled as `.error`);
5. inside `try`: a preparation exception is caught as `exception`;
6. subprocess not exited within the timeout → kill tree, `timeout` failure;
7. non-zero exit code → `runtime` failure with truncated stderr snippet;
8. no JSON line in stdout → `output` failure;
9. deserialization throw caught as `exception`; else success.
The `finally` block deletes the temporary directory on every path that
created it inside the `try`. -/
def BuildSignalsByDate (config : SandboxConfig) (env : PyEnv) :
    Except String PythonSignalsResult × SandboxEffects :=
  if isNullOrWhiteSpace config.strategyCode then
    (.ok ⟨⟨false, false, true, false,
        "No custom strategyCode provided. Using built-in momentum ranking.",
        0, none, none⟩, none⟩,
     SandboxEffects.none)
  else if (config.strategyCode.getD "").length > 200000 then
    (.ok ⟨⟨true, false, false, false, "Strategy code is too large.", 0, none, some "validation"⟩,
        none⟩,
     SandboxEffects.none)
  else
    match ValidateParams config.strategyParams with
    | some msg =>
      (.ok ⟨⟨true, false, false, false, msg, 0, none, some "validation"⟩, none⟩,
       SandboxEffects.none)
    | none =>
      match env.createDirThrows with
      | some exnMsg => (.error exnMsg, SandboxEffects.none)
      | none =>
        match env.prepThrows with
        | some exnMsg =>
          (.ok ⟨⟨true, false, false, false,
              "Python strategy execution failed unexpectedly.",
              0, some (Truncate exnMsg 3000), some "exception"⟩, none⟩,
           ⟨true, false, false, true⟩)
        | none =>
          if !env.exitsWithinTimeout then
            (.ok ⟨⟨true, true, false, false,
                "Python strategy timed out after 15 seconds.",
                0, none, some "timeout"⟩, none⟩,
             ⟨true, true, true, true⟩)
          else if env.exitCode ≠ 0 then
            (.ok ⟨⟨true, true, false, false,
                "Python strategy exited with non-zero status.",
                0, some (Truncate env.stderr 3000), some "runtime"⟩, none⟩,
             ⟨true, true, false, true⟩)
          else
            match ExtractSignalJson env.stdout with
            | none =>
              (.ok ⟨⟨true, true, false, false,
                  "Python strategy did not produce valid JSON output.",
                  0, some (Truncate env.stderr 3000), some "output"⟩, none⟩,
               ⟨true, true, false, true⟩)
            | some _ =>
              match env.deserThrows with
              | some exnMsg =>
                (.ok ⟨⟨true, false, false, false,
                    "Python strategy execution failed unexpectedly.",
                    0, some (Truncate exnMsg 3000), some "exception"⟩, none⟩,
                 ⟨true, true, false, true⟩)
              | none =>
                let parsed := env.deserResult.getD []
                (.ok ⟨⟨true, true, true, false,
                    "Python strategy executed successfully.",
                    parsed.length,
                    (if isBlank (Truncate env.stderr 3000) then none
                     else some (Truncate env.stderr 3000)),
                    none⟩, some parsed⟩,
                 ⟨true, true, false, true⟩)

/-! ## Demonstration inputs used by witnesses and counterexamples -/

/-- Four aligned trading days for every symbol. -/
def demoBars : String → List Nat := fun _ => [0, 1, 2, 3]

/-- Exactly two aligned trading days for every symbol. -/
def demoBarsShort : String → List Nat := fun _ => [0, 1]

/-- A benchmark series that only trades on day 0. -/
def demoBenchmarkDates : List Nat := [0]

/-- Close prices giving momenta 2, 1, 0 to A, B, C between day 0 and day 1. -/
def demoClose : String → Nat → ℚ := fun s d =>
  if s = "A" then (if d = 0 then 1 else 3)
  else if s = "B" then (if d = 0 then 1 else 2)
  else 1

/-- The built-in ranking of A, B, C under `demoClose` from day 0 to day 1. -/
def demoRanked : List (String × ℚ) :=
  builtinRanked ["A", "B", "C"] demoClose 0 1

/-- A failed scoring outcome as produced by a non-zero subprocess exit. -/
def demoExec : PythonExecutionSummary :=
  ⟨true, true, false, false, "Python strategy exited with non-zero status.", 0,
   some "Trace", some "runtime"⟩

/-- A sandbox request with a small strategy script and no parameters. -/
def demoSandboxConfig : SandboxConfig :=
  ⟨some "x = 1", none⟩

/-- An environment where creating the temporary directory throws. -/
def demoEnvDirFail : PyEnv :=
  ⟨some "disk full", none, true, 0, "", "", none, none⟩

/-- An environment where writing the execution files throws inside the try block. -/
def demoEnvPrepFail : PyEnv :=
  ⟨none, some "boom", true, 0, "", "", none, none⟩

/-- An environment where the subprocess does not exit within the timeout. -/
def demoEnvTimeout : PyEnv :=
  ⟨none, none, false, 0, "", "", none, none⟩

/-- Value `nestedArr n` is `n` nested one-element arrays around a scalar: its deepest
node sits `n` levels below the root. -/
def nestedArr : Nat → Json
  | 0 => .null
  | n + 1 => .arr [nestedArr n]

/-- A sandbox request whose parameter payload holds a depth-9 value. -/
def demoDeepConfig : SandboxConfig :=
  ⟨some "x = 1", some [("p", nestedArr 9)]⟩

/-! ## Helper lemmas: `distinct` -/

theorem mem_distinctAux [DecidableEq α] (x : α) (seen l : List α) :
    x ∈ distinctAux seen l ↔ x ∈ l ∧ x ∉ seen := by
  induction l generalizing seen with
  | nil => simp [distinctAux]
  | cons a l ih =>
    by_cases ha : a ∈ seen
    · rw [distinctAux, if_pos ha, ih]
      simp only [List.mem_cons]
      constructor
      · rintro ⟨hx, hs⟩; exact ⟨Or.inr hx, hs⟩
      · rintro ⟨hx | hx, hs⟩
        · exact absurd (hx ▸ ha) hs
        · exact ⟨hx, hs⟩
    · rw [distinctAux, if_neg ha]
      simp only [List.mem_cons, ih, not_or]
      constructor
      · rintro (rfl | ⟨hx, hne, hs⟩)
        · exact ⟨Or.inl rfl, ha⟩
        · exact ⟨Or.inr hx, hs⟩
      · rintro ⟨rfl | hx, hs⟩
        · exact Or.inl rfl
        · by_cases hxa : x = a
          · exact Or.inl hxa
          · exact Or.inr ⟨hx, hxa, hs⟩

theorem mem_distinct [DecidableEq α] (x : α) (l : List α) :
    x ∈ distinct l ↔ x ∈ l := by
  simp [distinct, mem_distinctAux]

theorem nodup_distinctAux [DecidableEq α] (seen l : List α) :
    (distinctAux seen l).Nodup := by
  induction l generalizing seen with
  | nil => simp [distinctAux]
  | cons a l ih =>
    by_cases ha : a ∈ seen
    · simpa [distinctAux, if_pos ha] using ih seen
    · rw [distinctAux, if_neg ha]
      refine List.nodup_cons.mpr ⟨?_, ih (a :: seen)⟩
      intro hmem
      exact ((mem_distinctAux a (a :: seen) l).mp hmem).2 (List.mem_cons_self a seen)

theorem nodup_distinct [DecidableEq α] (l : List α) : (distinct l).Nodup :=
  nodup_distinctAux [] l

theorem distinctAux_eq_self [DecidableEq α] (seen l : List α) (h : l.Nodup)
    (hdisj : ∀ a ∈ l, a ∉ seen) : distinctAux seen l = l := by
  induction l generalizing seen with
  | nil => simp [distinctAux]
  | cons a l ih =>
    have ha : a ∉ seen := hdisj a (List.mem_cons_self a l)
    rw [distinctAux, if_neg ha, ih (a :: seen) (List.nodup_cons.mp h).2]
    intro b hb
    simp only [List.mem_cons]
    rintro (rfl | hbs)
    · exact (List.nodup_cons.mp h).1 hb
    · exact hdisj b (List.mem_cons_of_mem _ hb) hbs

theorem distinct_eq_self [DecidableEq α] (l : List α) (h : l.Nodup) :
    distinct l = l :=
  distinctAux_eq_self [] l h (by simp)

/-! ## Helper lemmas: `IntersectDates` -/

theorem mem_foldl_filter (d : Nat) (acc : List Nat) (rest : List (List Nat)) :
    d ∈ rest.foldl (fun acc c => acc.filter (fun x => x ∈ c)) acc ↔
      d ∈ acc ∧ ∀ c ∈ rest, d ∈ c := by
  induction rest generalizing acc with
  | nil => simp
  | cons c cs ih =>
    simp only [List.foldl_cons, ih, List.mem_filter, decide_eq_true_eq, List.mem_cons]
    constructor
    · rintro ⟨⟨hacc, hc⟩, hcs⟩
      refine ⟨hacc, ?_⟩
      rintro c' (rfl | hc')
      · exact hc
      · exact hcs c' hc'
    · rintro ⟨hacc, hall⟩
      exact ⟨⟨hacc, hall c (Or.inl rfl)⟩, fun c' hc' => hall c' (Or.inr hc')⟩

theorem nodup_foldl_filter (acc : List Nat) (rest : List (List Nat)) (h : acc.Nodup) :
    (rest.foldl (fun acc c => acc.filter (fun x => x ∈ c)) acc).Nodup := by
  induction rest generalizing acc with
  | nil => simpa
  | cons c cs ih => exact ih _ (List.Nodup.filter _ h)

theorem mem_IntersectDates (cols : List (List Nat)) (hne : cols ≠ []) (d : Nat) :
    d ∈ IntersectDates cols ↔ ∀ c ∈ cols, d ∈ c := by
  match cols with
  | [] => exact absurd rfl hne
  | c0 :: rest =>
    simp only [IntersectDates]
    rw [(List.perm_insertionSort _ _).mem_iff, mem_foldl_filter, mem_distinct]
    simp only [List.mem_cons]
    constructor
    · rintro ⟨h0, hrest⟩
      rintro c (rfl | hc)
      · exact h0
      · exact hrest c hc
    · intro hall
      exact ⟨hall c0 (Or.inl rfl), fun c hc => hall c (Or.inr hc)⟩

theorem IntersectDates_nodup (cols : List (List Nat)) : (IntersectDates cols).Nodup := by
  match cols with
  | [] => simp [IntersectDates]
  | c0 :: rest =>
    simp only [IntersectDates]
    exact (List.perm_insertionSort _ _).nodup_iff.mpr
      (nodup_foldl_filter _ _ (nodup_distinct c0))

theorem IntersectDates_sorted_lt (cols : List (List Nat)) :
    (IntersectDates cols).Sorted (· < ·) := by
  match cols with
  | [] => simp [IntersectDates]
  | c0 :: rest =>
    have hs : (IntersectDates (c0 :: rest)).Sorted (· ≤ ·) := by
      simpa [IntersectDates] using List.sorted_insertionSort (· ≤ ·) _
    exact hs.lt_of_le (IntersectDates_nodup (c0 :: rest))

/-- Inversion of a successful setup: which data comes back and which checks held. -/
theorem runSetup_ok_iff (raw : List String) (L S lb : Nat) (getBars : String → List Nat)
    (syms : List String) (cal : List Nat) :
    runSetup raw L S getBars lb = .ok (syms, cal) ↔
      syms = normalizeSymbols raw ∧
      cal = IntersectDates ((normalizeSymbols raw).map getBars) ∧
      ¬ (normalizeSymbols raw).length < max 3 (L + S) ∧
      ¬ (IntersectDates ((normalizeSymbols raw).map getBars)).length ≤ lb + 2 := by
  unfold runSetup
  by_cases h1 : (normalizeSymbols raw).length < max 3 (L + S)
  · simp [h1]
  · by_cases h2 : (IntersectDates ((normalizeSymbols raw).map getBars)).length ≤ lb + 2
    · simp [h1, h2]
    · simp only [if_neg h1, if_neg h2, Except.ok.injEq, Prod.mk.injEq]
      constructor
      · rintro ⟨rfl, rfl⟩; exact ⟨rfl, rfl, h1, h2⟩
      · rintro ⟨rfl, rfl, -, -⟩; exact ⟨rfl, rfl⟩

/-! ## Claim C1: the aligned calendar -/

/-- C1 counterexample: with three symbols trading on days 0-3 and a benchmark
trading only on day 0, the engine's aligned calendar is `[0,1,2,3]`: it is not
the spec's symbols-and-benchmark intersection `[0]`, and day 1, which is
missing from the benchmark's bars, does appear in the calendar driving the
loop. -/
theorem C1_counterexample :
    runSetup ["A", "B", "C"] 2 1 demoBars 0 = .ok (["A", "B", "C"], [0, 1, 2, 3]) ∧
    specAlignedCalendar ["A", "B", "C"] demoBars demoBenchmarkDates = [0] ∧
    1 ∈ IntersectDates ((["A", "B", "C"]).map demoBars) ∧
    1 ∉ demoBenchmarkDates ∧
    IntersectDates ((["A", "B", "C"]).map demoBars) ≠
      specAlignedCalendar ["A", "B", "C"] demoBars demoBenchmarkDates :=
  ⟨rfl, rfl, by decide, by decide, by decide⟩

/-- C1 (amended): the aligned date calendar that drives the simulation loop is
the set-intersection of the trading dates of the configured (normalized)
symbols only — the benchmark series is not intersected — and it is sorted
strictly increasing with no duplicates. -/
theorem C1_calendar (raw : List String) (L S lb : Nat) (getBars : String → List Nat)
    (syms : List String) (cal : List Nat)
    (h : runSetup raw L S getBars lb = .ok (syms, cal)) :
    cal = IntersectDates (syms.map getBars) ∧
    (∀ d, d ∈ cal ↔ ∀ s ∈ syms, d ∈ getBars s) ∧
    cal.Sorted (· < ·) ∧ cal.Nodup := by
  obtain ⟨hsy, hcal, h1, h2⟩ := (runSetup_ok_iff raw L S lb getBars syms cal).mp h
  subst hsy
  subst hcal
  have hlen : 3 ≤ (normalizeSymbols raw).length :=
    le_trans (le_max_left 3 (L + S)) (not_lt.mp h1)
  have hne : (normalizeSymbols raw).map getBars ≠ [] := by
    intro hc
    have hnil : normalizeSymbols raw = [] := List.map_eq_nil_iff.mp hc
    simp [hnil] at hlen
  refine ⟨rfl, ?_, IntersectDates_sorted_lt _, IntersectDates_nodup _⟩
  intro d
  rw [mem_IntersectDates _ hne d]
  constructor
  · intro hall s hs
    exact hall (getBars s) (List.mem_map_of_mem getBars hs)
  · intro hall c hc
    obtain ⟨s, hs, rfl⟩ := List.mem_map.mp hc
    exact hall s hs

/-- Witness for C1 at a concrete passing setup. -/
theorem C1_witness :
    runSetup ["A", "B", "C"] 2 1 demoBars 0 = .ok (["A", "B", "C"], [0, 1, 2, 3]) ∧
    ([0, 1, 2, 3] = IntersectDates ((["A", "B", "C"]).map demoBars) ∧
      (∀ d, d ∈ [0, 1, 2, 3] ↔ ∀ s ∈ ["A", "B", "C"], d ∈ demoBars s) ∧
      ([0, 1, 2, 3] : List Nat).Sorted (· < ·) ∧ ([0, 1, 2, 3] : List Nat).Nodup) :=
  ⟨rfl, C1_calendar ["A", "B", "C"] 2 1 0 demoBars ["A", "B", "C"] [0, 1, 2, 3] rfl⟩

/-! ## Claim C2: the minimum date-coverage check -/

/-- C2 counterexample: a universe whose aligned calendar has exactly
`lookbackDays + 2` dates (here `lookbackDays = 0`, two aligned dates) does not
proceed to simulate — `RunAsync` throws the setup error, because the code
rejects `count <= lookbackDays + 2`, not only `count < lookbackDays + 2`. -/
theorem C2_counterexample :
    (IntersectDates ((normalizeSymbols ["A", "B", "C"]).map demoBarsShort)).length = 0 + 2 ∧
    runSetup ["A", "B", "C"] 2 1 demoBarsShort 0 =
      .error "Insufficient overlapping date coverage across symbols." :=
  ⟨rfl, rfl⟩

/-- C2 (amended): when the symbol-count check passes, the run fails with the
date-coverage setup error exactly when the aligned calendar has at most
`lookbackDays + 2` dates (fewer than `lookbackDays + 3`); with exactly
`lookbackDays + 3` dates the run proceeds. -/
theorem C2_dateCoverage (raw : List String) (L S lb : Nat) (getBars : String → List Nat)
    (hsym : ¬ (normalizeSymbols raw).length < max 3 (L + S)) :
    (runSetup raw L S getBars lb =
        .error "Insufficient overlapping date coverage across symbols." ↔
      (IntersectDates ((normalizeSymbols raw).map getBars)).length ≤ lb + 2) ∧
    ((IntersectDates ((normalizeSymbols raw).map getBars)).length = lb + 3 →
      runSetup raw L S getBars lb =
        .ok (normalizeSymbols raw, IntersectDates ((normalizeSymbols raw).map getBars))) := by
  unfold runSetup
  rw [if_neg hsym]
  constructor
  · by_cases h2 : (IntersectDates ((normalizeSymbols raw).map getBars)).length ≤ lb + 2
    · simp [h2]
    · simp [h2]
  · intro h3
    rw [if_neg (by omega)]

/-- Witness for C2 at a concrete input. -/
theorem C2_witness :
    (¬ (normalizeSymbols ["A", "B", "C"]).length < max 3 (2 + 1)) ∧
    ((runSetup ["A", "B", "C"] 2 1 demoBars 0 =
        .error "Insufficient overlapping date coverage across symbols." ↔
      (IntersectDates ((normalizeSymbols ["A", "B", "C"]).map demoBars)).length ≤ 0 + 2) ∧
    ((IntersectDates ((normalizeSymbols ["A", "B", "C"]).map demoBars)).length = 0 + 3 →
      runSetup ["A", "B", "C"] 2 1 demoBars 0 =
        .ok (normalizeSymbols ["A", "B", "C"],
          IntersectDates ((normalizeSymbols ["A", "B", "C"]).map demoBars)))) :=
  ⟨by decide, C2_dateCoverage ["A", "B", "C"] 2 1 0 demoBars (by decide)⟩

/-! ## Claim C3: rebalance boundaries in the 40-day scenario -/

/-- C3 counterexample: with 40 aligned days, `lookbackDays = 5` and
`rebalanceFrequencyDays = 5`, the rebalance condition does not hold on 7 of
the simulated days. -/
theorem C3_counterexample : rebalanceCount 40 5 5 ≠ 7 := by decide

/-- C3 (amended): in that scenario the simulated loop indices are 6..39 and the
rebalance condition `(i - lookbackDays) % max(1, rebalanceFrequencyDays) == 0`
holds on exactly 6 of them, namely i ∈ {10, 15, 20, 25, 30, 35}. -/
theorem C3_boundaries :
    rebalanceCount 40 5 5 = 6 ∧
    (simulatedIndices 40 5).filter (fun i => isRebalanceStep 5 5 i) =
      [10, 15, 20, 25, 30, 35] :=
  ⟨by decide, by decide⟩

/-! ## Claim C9: symbol normalization before the minimum-count check -/

/-- C9: the setup symbol check fails exactly when the normalized symbol list
(trimmed, upper-cased, blanks dropped, duplicates removed) is shorter than
`max 3 (longCount + shortCount)`; three raw spellings of one symbol normalize
to a single entry, so a raw list of length ≥ the minimum can still fail. -/
theorem C9_symbolNormalization :
    (∀ raw L S lb (getBars : String → List Nat),
      (runSetup raw L S getBars lb =
          .error "Not enough symbols provided for long/short selection." ↔
        (normalizeSymbols raw).length < max 3 (L + S))) ∧
    normalizeSymbols ["a", "A", " a "] = ["A"] ∧
    (["a", "A", " a "].length ≥ max 3 (2 + 1) ∧
      runSetup ["a", "A", " a "] 2 1 demoBars 0 =
        .error "Not enough symbols provided for long/short selection.") := by
  refine ⟨?_, by decide, by decide, rfl⟩
  intro raw L S lb getBars
  unfold runSetup
  by_cases h1 : (normalizeSymbols raw).length < max 3 (L + S)
  · simp [h1]
  · by_cases h2 : (IntersectDates ((normalizeSymbols raw).map getBars)).length ≤ lb + 2 <;>
      simp [h1, h2]

/-! ## Claim C10: non-positive rebalance cadence -/

/-- C10: for a zero or negative `rebalanceFrequencyDays` the modulo divisor is
`max(1, ·) = 1`, strictly positive (never a division by zero), and the
rebalance test then holds on every simulated day. -/
theorem C10_nonpositiveCadence (f : Int) (h : f ≤ 0) :
    rebalanceDivisor f = 1 ∧ 0 < rebalanceDivisor f ∧
    ∀ lb i, isRebalanceStep lb f i = true := by
  have h1 : rebalanceDivisor f = 1 := by
    simp only [rebalanceDivisor]
    omega
  refine ⟨h1, by omega, ?_⟩
  intro lb i
  simp [isRebalanceStep, h1]

/-- Witness for C10 at cadence −3. -/
theorem C10_witness :
    ((-3 : Int) ≤ 0) ∧
    (rebalanceDivisor (-3) = 1 ∧ 0 < rebalanceDivisor (-3) ∧
      ∀ lb i, isRebalanceStep lb (-3) i = true) :=
  ⟨by decide, C10_nonpositiveCadence (-3) (by decide)⟩

/-! ## Claim C4: weights immediately after a rebalance -/

/-- The built-in ranking of the three demo symbols is A (momentum 2), then B
(momentum 1), then C (momentum 0). -/
theorem demoRanked_eq : demoRanked = [("A", (2 : ℚ)), ("B", 1), ("C", 0)] := by
  simp only [demoRanked, builtinRanked, demoClose, momentumScore, List.map,
    List.insertionSort, List.orderedInsert, String.reduceEq, reduceIte]
  norm_num

/-- C4 counterexample: with `longCount = 0` and `shortCount = 3` over the
three demo symbols (which passes the setup minimum `max(3, 0+3) = 3`), the
long and short selections overlap and the selected long-leg symbol "A" ends
with the short-leg weight −1/3, which is not strictly positive. -/
theorem C4_counterexample :
    max 3 (0 + 3) ≤ (["A", "B", "C"] : List String).length ∧
    "A" ∈ longSelection demoRanked 0 ∧
    nextWeights demoRanked 0 3 "A" = -1 / 3 ∧
    ¬ 0 < nextWeights demoRanked 0 3 "A" := by
  have h1 : "A" ∈ longSelection demoRanked 0 := by
    rw [demoRanked_eq]; decide
  have h2 : nextWeights demoRanked 0 3 "A" = -1 / 3 := by
    rw [demoRanked_eq]
    have hmem : "A" ∈ shortSelection [("A", (2 : ℚ)), ("B", 1), ("C", 0)] 3 := by decide
    have hlen : (shortSelection [("A", (2 : ℚ)), ("B", 1), ("C", 0)] 3).length = 3 := by decide
    rw [nextWeights, if_pos hmem, hlen]
    norm_num
  exact ⟨by decide, h1, h2, by rw [h2]; norm_num⟩

/-- C4 (amended): when at least one symbol is requested on each leg and the
legs fit in the universe (`1 ≤ longCount`, `1 ≤ shortCount`,
`longCount + shortCount ≤ |ranked|`, so the two selections cannot overlap),
every selected long symbol gets weight `1/longCount > 0` and the long weights
sum to exactly 1; every selected short symbol gets `−1/shortCount < 0` and the
short weights sum to exactly −1; every unselected symbol has weight exactly 0.
(The sums are exact here because `decimal` is modelled by `ℚ`.) -/
theorem C4_rebalanceWeights (ranked : List (String × ℚ)) (L S : Nat)
    (hnd : (ranked.map Prod.fst).Nodup) (hL : 1 ≤ L) (hS : 1 ≤ S)
    (hLS : L + S ≤ ranked.length) :
    (∀ s ∈ longSelection ranked L,
        nextWeights ranked L S s = 1 / (L : ℚ) ∧ 0 < nextWeights ranked L S s) ∧
    ((longSelection ranked L).map (nextWeights ranked L S)).sum = 1 ∧
    (∀ s ∈ shortSelection ranked S,
        nextWeights ranked L S s = -1 / (S : ℚ) ∧ nextWeights ranked L S s < 0) ∧
    ((shortSelection ranked S).map (nextWeights ranked L S)).sum = -1 ∧
    (∀ s, s ∉ longSelection ranked L → s ∉ shortSelection ranked S →
        nextWeights ranked L S s = 0) := by
  have hLne : (L : ℚ) ≠ 0 := Nat.cast_ne_zero.mpr (by omega)
  have hSne : (S : ℚ) ≠ 0 := Nat.cast_ne_zero.mpr (by omega)
  have hlenm : (ranked.map Prod.fst).length = ranked.length := List.length_map _ _
  have hlongsel : longSelection ranked L = (ranked.map Prod.fst).take L := by
    unfold longSelection
    rw [max_eq_right hL, List.map_take]
    exact distinct_eq_self _ (hnd.sublist (List.take_sublist _ _))
  have hshortsel : shortSelection ranked S =
      (ranked.map Prod.fst).drop (ranked.length - S) := by
    unfold shortSelection takeLast
    rw [max_eq_right hS, List.map_drop]
    exact distinct_eq_self _ (hnd.sublist (List.drop_sublist _ _))
  have hlonglen : (longSelection ranked L).length = L := by
    rw [hlongsel, List.length_take, hlenm]; omega
  have hshortlen : (shortSelection ranked S).length = S := by
    rw [hshortsel, List.length_drop, hlenm]; omega
  have hdisj : List.Disjoint (longSelection ranked L) (shortSelection ranked S) := by
    rw [hlongsel, hshortsel]
    exact List.disjoint_take_drop hnd (by omega)
  have hw_long : ∀ s ∈ longSelection ranked L, nextWeights ranked L S s = 1 / (L : ℚ) := by
    intro s hs
    have hns : s ∉ shortSelection ranked S := fun hc => hdisj hs hc
    rw [nextWeights, if_neg hns, if_pos hs, hlonglen]
  have hw_short : ∀ s ∈ shortSelection ranked S, nextWeights ranked L S s = -1 / (S : ℚ) := by
    intro s hs
    rw [nextWeights, if_pos hs, hshortlen]
  have hpos : (0 : ℚ) < 1 / (L : ℚ) :=
    one_div_pos.mpr (by exact_mod_cast Nat.pos_of_ne_zero (by omega))
  have hneg : (-1 : ℚ) / (S : ℚ) < 0 :=
    div_neg_of_neg_of_pos (by norm_num) (by exact_mod_cast Nat.pos_of_ne_zero (by omega))
  refine ⟨?_, ?_, ?_, ?_, ?_⟩
  · intro s hs
    exact ⟨hw_long s hs, (hw_long s hs).symm ▸ hpos⟩
  · rw [List.map_congr_left hw_long, List.map_const', List.sum_replicate, hlonglen,
      nsmul_eq_mul]
    field_simp
  · intro s hs
    exact ⟨hw_short s hs, (hw_short s hs).symm ▸ hneg⟩
  · rw [List.map_congr_left hw_short, List.map_const', List.sum_replicate, hshortlen,
      nsmul_eq_mul]
    field_simp
  · intro s hsl hss
    rw [nextWeights, if_neg hss, if_neg hsl]

/-- Witness for C4 at a concrete three-symbol ranking with one-symbol legs. -/
theorem C4_witness :
    ((([("A", (2 : ℚ)), ("B", 1), ("C", 0)]).map Prod.fst).Nodup ∧ 1 ≤ 1 ∧ 1 ≤ 1 ∧
      1 + 1 ≤ ([("A", (2 : ℚ)), ("B", 1), ("C", 0)]).length) ∧
    ((∀ s ∈ longSelection [("A", (2 : ℚ)), ("B", 1), ("C", 0)] 1,
        nextWeights [("A", (2 : ℚ)), ("B", 1), ("C", 0)] 1 1 s = 1 / ((1 : Nat) : ℚ) ∧
        0 < nextWeights [("A", (2 : ℚ)), ("B", 1), ("C", 0)] 1 1 s) ∧
    ((longSelection [("A", (2 : ℚ)), ("B", 1), ("C", 0)] 1).map
        (nextWeights [("A", (2 : ℚ)), ("B", 1), ("C", 0)] 1 1)).sum = 1 ∧
    (∀ s ∈ shortSelection [("A", (2 : ℚ)), ("B", 1), ("C", 0)] 1,
        nextWeights [("A", (2 : ℚ)), ("B", 1), ("C", 0)] 1 1 s = -1 / ((1 : Nat) : ℚ) ∧
        nextWeights [("A", (2 : ℚ)), ("B", 1), ("C", 0)] 1 1 s < 0) ∧
    ((shortSelection [("A", (2 : ℚ)), ("B", 1), ("C", 0)] 1).map
        (nextWeights [("A", (2 : ℚ)), ("B", 1), ("C", 0)] 1 1)).sum = -1 ∧
    (∀ s, s ∉ longSelection [("A", (2 : ℚ)), ("B", 1), ("C", 0)] 1 →
        s ∉ shortSelection [("A", (2 : ℚ)), ("B", 1), ("C", 0)] 1 →
        nextWeights [("A", (2 : ℚ)), ("B", 1), ("C", 0)] 1 1 s = 0)) :=
  ⟨⟨by decide, by decide, by decide, by decide⟩,
   C4_rebalanceWeights [("A", (2 : ℚ)), ("B", 1), ("C", 0)] 1 1
     (by decide) (by decide) (by decide) (by decide)⟩

/-! ## Claim C5: failure handling of the scoring outcome -/

/-- C5: whenever scoring was requested and unsuccessful, then (a) with fallback
enabled the caller keeps no external signals (so `rankedAt none` is the
built-in ranking at every rebalance of the run) and the outcome is marked
`usedFallback` with an explanatory message appended; (b) with fallback
disabled the caller aborts the run with an error embedding the error kind,
the message, and the diagnostic stderr excerpt, returning no result. -/
theorem C5_scoringFailurePolicy (fallback : Bool) (exec : PythonExecutionSummary)
    (signals : Option SigMap)
    (hreq : exec.requested = true) (hfail : exec.succeeded = false) :
    (fallback = true →
      applyPythonOutcome fallback exec signals =
        .ok ({ exec with
                usedFallback := true
                message := exec.message ++ " Falling back to built-in momentum ranking." },
             none) ∧
      (∀ dateKey symbols builtin, rankedAt none dateKey symbols builtin = builtin)) ∧
    (fallback = false →
      applyPythonOutcome fallback exec signals = .error (pythonFailureMessage exec) ∧
      (∃ a b, pythonFailureMessage exec = a ++ exec.errorType.getD "error" ++ b) ∧
      (∃ a b, pythonFailureMessage exec = a ++ exec.message ++ b) ∧
      (∀ s, exec.stderrSnippet = some s → isBlank s = false →
        ∃ a, pythonFailureMessage exec = a ++ s)) := by
  constructor
  · intro hfb
    subst hfb
    exact ⟨by simp [applyPythonOutcome, hreq, hfail], fun _ _ _ => rfl⟩
  · intro hfb
    subst hfb
    refine ⟨by simp [applyPythonOutcome, hreq, hfail], ?_, ?_, ?_⟩
    · exact ⟨"Python strategy failed (",
        "): " ++ exec.message ++ "." ++
          (if isNullOrWhiteSpace exec.stderrSnippet then ""
           else " stderr: " ++ exec.stderrSnippet.getD ""),
        by simp [pythonFailureMessage, String.append_assoc]⟩
    · exact ⟨"Python strategy failed (" ++ exec.errorType.getD "error" ++ "): ",
        "." ++
          (if isNullOrWhiteSpace exec.stderrSnippet then ""
           else " stderr: " ++ exec.stderrSnippet.getD ""),
        by simp [pythonFailureMessage, String.append_assoc]⟩
    · intro s hs hb
      have hdetail : (if isNullOrWhiteSpace exec.stderrSnippet then ""
          else " stderr: " ++ exec.stderrSnippet.getD "") = " stderr: " ++ s := by
        rw [hs]
        simp [isNullOrWhiteSpace, hb]
      refine ⟨"Python strategy failed (" ++ exec.errorType.getD "error" ++ "): " ++
        exec.message ++ "." ++ " stderr: ", ?_⟩
      simp only [pythonFailureMessage]
      rw [hdetail, ← String.append_assoc]

/-- Witness for C5 at a concrete failed runtime outcome with fallback disabled. -/
theorem C5_witness :
    (demoExec.requested = true ∧ demoExec.succeeded = false) ∧
    ((false = true →
      applyPythonOutcome false demoExec none =
        .ok ({ demoExec with
                usedFallback := true
                message := demoExec.message ++ " Falling back to built-in momentum ranking." },
             none) ∧
      (∀ dateKey symbols builtin, rankedAt none dateKey symbols builtin = builtin)) ∧
    (false = false →
      applyPythonOutcome false demoExec none = .error (pythonFailureMessage demoExec) ∧
      (∃ a b, pythonFailureMessage demoExec = a ++ demoExec.errorType.getD "error" ++ b) ∧
      (∃ a b, pythonFailureMessage demoExec = a ++ demoExec.message ++ b) ∧
      (∀ s, demoExec.stderrSnippet = some s → isBlank s = false →
        ∃ a, pythonFailureMessage demoExec = a ++ s))) :=
  ⟨⟨rfl, rfl⟩, C5_scoringFailurePolicy false demoExec none rfl rfl⟩

/-! ## Claim C6: exception containment in the sandbox -/

/-- C6 counterexample: an exception thrown while creating the temporary
directory (which sits before the `try` block) propagates uncaught out of
`BuildSignalsByDateAsync` instead of being converted into an
`errorKind:"exception"` outcome — the preparation step is reached because the
strategy code is present, small, and the parameters validate. -/
theorem C6_counterexample :
    isNullOrWhiteSpace demoSandboxConfig.strategyCode = false ∧
    ValidateParams demoSandboxConfig.strategyParams = none ∧
    (BuildSignalsByDate demoSandboxConfig demoEnvDirFail).1 = .error "disk full" :=
  ⟨rfl, rfl, rfl⟩

/-- C6 (amended): provided the temporary-directory creation itself does not
throw, the sandbox call never lets any exception propagate (it always returns
a structured outcome), and an unexpected exception inside the `try` block is
returned as an outcome with `errorKind:"exception"`, an explanatory message,
and an absent ScoreMap. An exception thrown while creating the temporary
directory, however, propagates to the caller. -/
theorem C6_exceptionContainment (config : SandboxConfig) (env : PyEnv)
    (hdir : env.createDirThrows = none) :
    (∃ r, (BuildSignalsByDate config env).1 = .ok r) ∧
    (∀ m, env.prepThrows = some m →
      isNullOrWhiteSpace config.strategyCode = false →
      (config.strategyCode.getD "").length ≤ 200000 →
      ValidateParams config.strategyParams = none →
      (BuildSignalsByDate config env).1 =
        .ok ⟨⟨true, false, false, false, "Python strategy execution failed unexpectedly.",
            0, some (Truncate m 3000), some "exception"⟩, none⟩) := by
  constructor
  · cases hres : (BuildSignalsByDate config env).1 with
    | ok r => exact ⟨r, rfl⟩
    | error e =>
      exfalso
      unfold BuildSignalsByDate at hres
      simp only [hdir] at hres
      split at hres
      · simp at hres
      · split at hres
        · simp at hres
        · split at hres
          · simp at hres
          · split at hres
            · simp at hres
            · split at hres
              · simp at hres
              · split at hres
                · simp at hres
                · split at hres
                  · simp at hres
                  · split at hres
                    · simp at hres
                    · simp at hres
  · intro m hprep hcode hlen hval
    unfold BuildSignalsByDate
    rw [hcode, hval, hdir, hprep]
    simp only [Bool.false_eq_true, if_false]
    rw [if_neg (by omega)]

/-- Witness for C6 at a concrete request whose preparation throws. -/
theorem C6_witness :
    demoEnvPrepFail.createDirThrows = none ∧
    ((∃ r, (BuildSignalsByDate demoSandboxConfig demoEnvPrepFail).1 = .ok r) ∧
    (∀ m, demoEnvPrepFail.prepThrows = some m →
      isNullOrWhiteSpace demoSandboxConfig.strategyCode = false →
      (demoSandboxConfig.strategyCode.getD "").length ≤ 200000 →
      ValidateParams demoSandboxConfig.strategyParams = none →
      (BuildSignalsByDate demoSandboxConfig demoEnvPrepFail).1 =
        .ok ⟨⟨true, false, false, false, "Python strategy execution failed unexpectedly.",
            0, some (Truncate m 3000), some "exception"⟩, none⟩)) :=
  ⟨rfl, C6_exceptionContainment demoSandboxConfig demoEnvPrepFail rfl⟩

/-! ## Claim C7: the hard timeout -/

/-- C7: when the scoring subprocess does not exit within the 15-second
timeout, the sandbox kills the process tree and returns the outcome
`executed:true, succeeded:false, errorKind:"timeout"` with an absent ScoreMap —
no partial signals are ever returned on this path. -/
theorem C7_timeout (config : SandboxConfig) (env : PyEnv)
    (hcode : isNullOrWhiteSpace config.strategyCode = false)
    (hlen : (config.strategyCode.getD "").length ≤ 200000)
    (hval : ValidateParams config.strategyParams = none)
    (hdir : env.createDirThrows = none)
    (hprep : env.prepThrows = none)
    (htime : env.exitsWithinTimeout = false) :
    BuildSignalsByDate config env =
      (.ok ⟨⟨true, true, false, false, "Python strategy timed out after 15 seconds.",
          0, none, some "timeout"⟩, none⟩,
       ⟨true, true, true, true⟩) := by
  unfold BuildSignalsByDate
  rw [hcode, hval, hdir, hprep, htime]
  simp only [Bool.false_eq_true, if_false, Bool.not_false, if_true]
  rw [if_neg (by omega)]

/-- Witness for C7 at a concrete request that times out. -/
theorem C7_witness :
    (isNullOrWhiteSpace demoSandboxConfig.strategyCode = false ∧
      (demoSandboxConfig.strategyCode.getD "").length ≤ 200000 ∧
      ValidateParams demoSandboxConfig.strategyParams = none ∧
      demoEnvTimeout.createDirThrows = none ∧
      demoEnvTimeout.prepThrows = none ∧
      demoEnvTimeout.exitsWithinTimeout = false) ∧
    BuildSignalsByDate demoSandboxConfig demoEnvTimeout =
      (.ok ⟨⟨true, true, false, false, "Python strategy timed out after 15 seconds.",
          0, none, some "timeout"⟩, none⟩,
       ⟨true, true, true, true⟩) :=
  ⟨⟨rfl, by decide, rfl, rfl, rfl, rfl⟩,
   C7_timeout demoSandboxConfig demoEnvTimeout rfl (by decide) rfl rfl rfl rfl⟩

/-! ## Claim C8: depth validation before any execution side effect -/

/-- Arithmetic step for arrays: if every child respects the bound one level
down, so does the parent. -/
theorem nodeDepthArr_le (items : List Json) (d md : Nat) (hd : d ≤ md)
    (h : ∀ j ∈ items, d + 1 + nodeDepth j ≤ md) : d + nodeDepthArr items ≤ md := by
  induction items with
  | nil => rw [nodeDepthArr]; omega
  | cons j rest ih =>
    have h1 := h j (List.mem_cons_self _ _)
    have h2 := ih (fun j' hj' => h j' (List.mem_cons_of_mem _ hj'))
    rw [nodeDepthArr]
    omega

/-- Arithmetic step for objects. -/
theorem nodeDepthObj_le (fields : List (String × Json)) (d md : Nat) (hd : d ≤ md)
    (h : ∀ kv ∈ fields, d + 1 + nodeDepth kv.2 ≤ md) : d + nodeDepthObj fields ≤ md := by
  induction fields with
  | nil => rw [nodeDepthObj]; omega
  | cons kv rest ih =>
    obtain ⟨k, j⟩ := kv
    have h1 : d + 1 + nodeDepth j ≤ md := h (k, j) (List.mem_cons_self _ _)
    have h2 := ih (fun kv' hkv' => h kv' (List.mem_cons_of_mem _ hkv'))
    rw [nodeDepthObj]
    omega

mutual

/-- If the depth/size traversal of one element succeeds, that element's
deepest node sits within the depth ceiling. -/
theorem travOne_true_depth (md mn : Nat) (j : Json) (d n : Nat)
    (h : (travOne md mn j d n).1 = true) : d + nodeDepth j ≤ md := by
  simp only [travOne.eq_def] at h
  by_cases hc : (decide (n + 1 > mn) || decide (d > md)) = true
  · rw [if_pos hc] at h
    exact absurd h (by simp)
  · rw [if_neg hc] at h
    have hd : d ≤ md := by
      simp only [Bool.or_eq_true, decide_eq_true_eq, not_or] at hc
      omega
    cases j with
    | arr items =>
      simp only [nodeDepth]
      exact nodeDepthArr_le items d md hd (travArr_true_depth md mn items (d + 1) (n + 1) h)
    | obj fields =>
      simp only [nodeDepth]
      exact nodeDepthObj_le fields d md hd (travObj_true_depth md mn fields (d + 1) (n + 1) h)
    | null => simp only [nodeDepth]; omega
    | bool b => simp only [nodeDepth]; omega
    | num q => simp only [nodeDepth]; omega
    | str s => simp only [nodeDepth]; omega

/-- If the traversal of an array's children succeeds, every child stays within
the ceiling at its own depth. -/
theorem travArr_true_depth (md mn : Nat) (items : List Json) (d n : Nat)
    (h : (travArr md mn items d n).1 = true) : ∀ j ∈ items, d + nodeDepth j ≤ md := by
  match items with
  | [] => intro j hj; cases hj
  | j0 :: rest =>
    rw [travArr] at h
    rcases htrav : travOne md mn j0 d n with ⟨ok, n1⟩
    rw [htrav] at h
    cases ok with
    | false => simp at h
    | true =>
      intro j hj
      rcases List.mem_cons.mp hj with rfl | hj'
      · exact travOne_true_depth md mn j d n (by rw [htrav])
      · exact travArr_true_depth md mn rest d n1 h j hj'

/-- Object-field version of `travArr_true_depth`. -/
theorem travObj_true_depth (md mn : Nat) (fields : List (String × Json)) (d n : Nat)
    (h : (travObj md mn fields d n).1 = true) :
    ∀ kv ∈ fields, d + nodeDepth kv.2 ≤ md := by
  match fields with
  | [] => intro kv hkv; cases hkv
  | (k0, j0) :: rest =>
    rw [travObj] at h
    rcases htrav : travOne md mn j0 d n with ⟨ok, n1⟩
    rw [htrav] at h
    cases ok with
    | false => simp at h
    | true =>
      intro kv hkv
      rcases List.mem_cons.mp hkv with rfl | hkv'
      · exact travOne_true_depth md mn j0 d n (by rw [htrav])
      · exact travObj_true_depth md mn rest d n1 h kv hkv'

end

/-- A value whose deepest node sits below the depth ceiling is rejected by
`IsWithinDepthAndSize` (the converse of `travOne_true_depth` at the root). -/
theorem depth_rejected (j : Json) (h : 9 ≤ nodeDepth j) :
    IsWithinDepthAndSize j 8 10000 = false := by
  cases hb : IsWithinDepthAndSize j 8 10000 with
  | false => rfl
  | true =>
    exfalso
    have := travOne_true_depth 8 10000 j 0 0 hb
    omega

/-- If some parameter value is rejected by the depth/size walk, the `foreach`
over the parameters reports an error. -/
theorem findParamError_isSome (ps : List (String × Json)) (k : String) (j : Json)
    (hmem : (k, j) ∈ ps) (hbad : IsWithinDepthAndSize j 8 10000 = false) :
    (findParamError ps).isSome = true := by
  induction ps with
  | nil => cases hmem
  | cons kv rest ih =>
    obtain ⟨k0, v0⟩ := kv
    rw [findParamError]
    by_cases h1 : k0.length > 120
    · rw [if_pos h1]; rfl
    · rw [if_neg h1]
      by_cases h2 : IsWithinDepthAndSize v0 8 10000 = true
      · rw [if_neg (by simp [h2])]
        rcases List.mem_cons.mp hmem with heq | hmem'
        · cases heq
          rw [hbad] at h2
          cases h2
        · exact ih hmem'
      · rw [if_pos (by simp [Bool.eq_false_iff.mpr h2])]
        rfl

/-- A strategy-parameter payload containing a value nested to depth ≥ 9 never
passes `ValidateParams` under the depth ceiling of 8. -/
theorem ValidateParams_isSome_of_deep (ps : List (String × Json)) (k : String) (j : Json)
    (hmem : (k, j) ∈ ps) (hdepth : 9 ≤ nodeDepth j) :
    (ValidateParams (some ps)).isSome = true := by
  rw [ValidateParams]
  by_cases h1 : ps.length > 200
  · rw [if_pos h1]; rfl
  · rw [if_neg h1]
    exact findParamError_isSome ps k j hmem (depth_rejected j hdepth)

/-- Value `nestedArr n` nests its deepest node exactly `n` levels below the root. -/
theorem nodeDepth_nestedArr (n : Nat) : nodeDepth (nestedArr n) = n := by
  induction n with
  | zero => simp [nestedArr, nodeDepth]
  | succ n ih =>
    rw [nestedArr]
    simp only [nodeDepth, nodeDepthArr]
    omega

/-- C8: a strategy-parameter payload containing a value nested to depth 9
(ceiling 8) makes the sandbox return a failure outcome with
`errorKind:"validation"`, with no temporary directory created and no
subprocess spawned (the launch branch is unreachable), whatever the
environment would have done. -/
theorem C8_depthValidation (config : SandboxConfig) (env : PyEnv)
    (ps : List (String × Json)) (k : String) (j : Json)
    (hps : config.strategyParams = some ps) (hmem : (k, j) ∈ ps)
    (hdepth : nodeDepth j = 9)
    (hcode : isNullOrWhiteSpace config.strategyCode = false)
    (hlen : (config.strategyCode.getD "").length ≤ 200000) :
    (∃ msg, BuildSignalsByDate config env =
      (.ok ⟨⟨true, false, false, false, msg, 0, none, some "validation"⟩, none⟩,
       SandboxEffects.none)) ∧
    (BuildSignalsByDate config env).2.tempDirCreated = false ∧
    (BuildSignalsByDate config env).2.processSpawned = false := by
  have hsome : (ValidateParams config.strategyParams).isSome = true := by
    rw [hps]
    exact ValidateParams_isSome_of_deep ps k j hmem (by omega)
  obtain ⟨msg, hmsg⟩ := Option.isSome_iff_exists.mp hsome
  have hbuild : BuildSignalsByDate config env =
      (.ok ⟨⟨true, false, false, false, msg, 0, none, some "validation"⟩, none⟩,
       SandboxEffects.none) := by
    unfold BuildSignalsByDate
    rw [hcode, hmsg]
    simp only [Bool.false_eq_true, if_false]
    rw [if_neg (by omega)]
  refine ⟨⟨msg, hbuild⟩, ?_, ?_⟩ <;> rw [hbuild] <;> rfl

/-- Witness for C8 at a concrete depth-9 payload. -/
theorem C8_witness :
    (demoDeepConfig.strategyParams = some [("p", nestedArr 9)] ∧
      ("p", nestedArr 9) ∈ [("p", nestedArr 9)] ∧
      nodeDepth (nestedArr 9) = 9 ∧
      isNullOrWhiteSpace demoDeepConfig.strategyCode = false ∧
      (demoDeepConfig.strategyCode.getD "").length ≤ 200000) ∧
    ((∃ msg, BuildSignalsByDate demoDeepConfig demoEnvTimeout =
      (.ok ⟨⟨true, false, false, false, msg, 0, none, some "validation"⟩, none⟩,
       SandboxEffects.none)) ∧
    (BuildSignalsByDate demoDeepConfig demoEnvTimeout).2.tempDirCreated = false ∧
    (BuildSignalsByDate demoDeepConfig demoEnvTimeout).2.processSpawned = false) :=
  ⟨⟨rfl, List.mem_cons_self _ _, nodeDepth_nestedArr 9, rfl, by decide⟩,
   C8_depthValidation demoDeepConfig demoEnvTimeout [("p", nestedArr 9)] "p" (nestedArr 9)
     rfl (List.mem_cons_self _ _) (nodeDepth_nestedArr 9) rfl (by decide)⟩

end QuantBacktest
